import Mathlib

/-!
Verification of the audio-processor pipeline (Go, `src/main.go`) against its
natural-language specification.

The embedding below translates the program's data model and operations into
Lean:

* `AudioChunk` and `Metadata` mirror the two structs, with `time.Time`
  modelled as an opaque `Nat` tick and `[]byte` as `List Nat` (each entry a
  byte value).
* `sha256Bytes` / `sha256Hex` embed `crypto/sha256.Sum256` followed by
  `fmt.Sprintf("%x", ...)`: the FIPS 180-4 SHA-256 algorithm over byte lists,
  with 32-bit words as `Nat` reduced mod 2^32.
* `transformStage` embeds the per-job body of `TransformStage`
  (main.go:85-94); the draw of `rand.Intn(10000)` is passed in as an explicit
  parameter `r`, since it is external randomness.
* `MemoryStore` with `Save` / `Get` / `ListByUser` embeds the mutex-protected
  map (main.go:40-72) as an association list with overwrite-by-key update; the
  Go map's key uniqueness is the `keysNodup` invariant.
* `workerRun` embeds the single worker loop's observable write trace: one send
  on the job's private result channel per dequeued job.
* `EngineState` / `Step` / `Reachable` embed the submission concurrency of
  `handleUpload` / `handleWebSocket` (bare `jobs <- Job{...}` sends on a
  buffered channel) together with `TransformStage`'s `select` loop, as a small
  transition system.
-/

/-! ## Byte-level SHA-256 (embedding of `crypto/sha256.Sum256`) -/

/-- 2^32, the word modulus for SHA-256 arithmetic. -/
def w32 : Nat := 4294967296

/-- 32-bit addition. -/
def add32 (a b : Nat) : Nat := (a + b) % w32

/-- 32-bit right rotation by `n`. -/
def rotr32 (n x : Nat) : Nat := ((x >>> n) ||| (x <<< (32 - n))) % w32

/-- Logical right shift. -/
def shr32 (n x : Nat) : Nat := x >>> n

/-- SHA-256 `Ch` function: bitwise choice. -/
def shaCh (x y z : Nat) : Nat := (x &&& y) ^^^ ((x ^^^ 4294967295) &&& z)

/-- SHA-256 `Maj` function: bitwise majority. -/
def shaMaj (x y z : Nat) : Nat := (x &&& y) ^^^ (x &&& z) ^^^ (y &&& z)

/-- SHA-256 Σ₀. -/
def bigSigma0 (x : Nat) : Nat := rotr32 2 x ^^^ rotr32 13 x ^^^ rotr32 22 x

/-- SHA-256 Σ₁. -/
def bigSigma1 (x : Nat) : Nat := rotr32 6 x ^^^ rotr32 11 x ^^^ rotr32 25 x

/-- SHA-256 σ₀. -/
def smallSigma0 (x : Nat) : Nat := rotr32 7 x ^^^ rotr32 18 x ^^^ shr32 3 x

/-- SHA-256 σ₁. -/
def smallSigma1 (x : Nat) : Nat := rotr32 17 x ^^^ rotr32 19 x ^^^ shr32 10 x

/-- The 64 SHA-256 round constants (FIPS 180-4, here in decimal). -/
def sha256K : List Nat :=
  [1116352408, 1899447441, 3049323471, 3921009573, 961987163, 1508970993,
   2453635748, 2870763221, 3624381080, 310598401, 607225278, 1426881987,
   1925078388, 2162078206, 2614888103, 3248222580, 3835390401, 4022224774,
   264347078, 604807628, 770255983, 1249150122, 1555081692, 1996064986,
   2554220882, 2821834349, 2952996808, 3210313671, 3336571891, 3584528711,
   113926993, 338241895, 666307205, 773529912, 1294757372, 1396182291,
   1695183700, 1986661051, 2177026350, 2456956037, 2730485921, 2820302411,
   3259730800, 3345764771, 3516065817, 3600352804, 4094571909, 275423344,
   430227734, 506948616, 659060556, 883997877, 958139571, 1322822218,
   1537002063, 1747873779, 1955562222, 2024104815, 2227730452, 2361852424,
   2428436474, 2756734187, 3204031479, 3329325298]

/-- The eight-word SHA-256 working state. -/
structure Hash8 where
  a : Nat
  b : Nat
  c : Nat
  d : Nat
  e : Nat
  f : Nat
  g : Nat
  h : Nat
deriving DecidableEq, Repr

/-- The SHA-256 initial hash value (FIPS 180-4, in decimal). -/
def sha256H0 : Hash8 :=
  ⟨1779033703, 3144134277, 1013904242, 2773480762,
   1359893119, 2600822924, 528734635, 1541459225⟩

/-- The eight state words in order. -/
def hashWords (v : Hash8) : List Nat := [v.a, v.b, v.c, v.d, v.e, v.f, v.g, v.h]

/-- A 64-bit length as 8 big-endian bytes. -/
def beBytes8 (n : Nat) : List Nat :=
  [n >>> 56 % 256, n >>> 48 % 256, n >>> 40 % 256, n >>> 32 % 256,
   n >>> 24 % 256, n >>> 16 % 256, n >>> 8 % 256, n % 256]

/-- A 32-bit word as 4 big-endian bytes. -/
def wordBytes (n : Nat) : List Nat :=
  [n >>> 24 % 256, n >>> 16 % 256, n >>> 8 % 256, n % 256]

/-- Merkle-Damgård padding: 0x80, zeros to 56 mod 64, then the bit length. -/
def padMessage (msg : List Nat) : List Nat :=
  msg ++ [0x80] ++ List.replicate ((119 - msg.length % 64) % 64) 0
      ++ beBytes8 (msg.length * 8)

/-- Split a byte list into 64-byte blocks (structural recursion on fuel,
which is kernel-reducible; `fuel = l.length` always suffices). -/
def toBlocksAux : Nat → List Nat → List (List Nat)
  | 0, _ => []
  | _, [] => []
  | fuel + 1, l => l.take 64 :: toBlocksAux fuel (l.drop 64)

/-- Split a byte list into 64-byte blocks. -/
def toBlocks (l : List Nat) : List (List Nat) :=
  toBlocksAux l.length l

/-- Parse a block into 16 big-endian 32-bit words. -/
def toWords : List Nat → List Nat
  | b0 :: b1 :: b2 :: b3 :: rest => (((b0 * 256 + b1) * 256 + b2) * 256 + b3) :: toWords rest
  | _ => []

/-- Append the next message-schedule word to `w`. -/
def scheduleStep (w : List Nat) : List Nat :=
  let n := w.length
  w ++ [add32 (add32 (smallSigma1 (w.getD (n - 2) 0)) (w.getD (n - 7) 0))
              (add32 (smallSigma0 (w.getD (n - 15) 0)) (w.getD (n - 16) 0))]

/-- Extend the 16 block words to the 64-entry message schedule. -/
def schedule (w16 : List Nat) : List Nat :=
  (List.range 48).foldl (fun w _ => scheduleStep w) w16

/-- One SHA-256 compression round for constant/schedule pair `kw`. -/
def shaRound (st : Hash8) (kw : Nat × Nat) : Hash8 :=
  let t1 := add32 st.h (add32 (add32 (bigSigma1 st.e) (shaCh st.e st.f st.g))
                              (add32 kw.1 kw.2))
  let t2 := add32 (bigSigma0 st.a) (shaMaj st.a st.b st.c)
  ⟨add32 t1 t2, st.a, st.b, st.c, add32 st.d t1, st.e, st.f, st.g⟩

/-- Compress one 64-byte block into the running hash value. -/
def processBlock (v : Hash8) (block : List Nat) : Hash8 :=
  let st := (sha256K.zip (schedule (toWords block))).foldl shaRound v
  ⟨add32 v.a st.a, add32 v.b st.b, add32 v.c st.c, add32 v.d st.d,
   add32 v.e st.e, add32 v.f st.f, add32 v.g st.g, add32 v.h st.h⟩

/-- SHA-256 of a byte list, as its 32 digest bytes. -/
def sha256Bytes (msg : List Nat) : List Nat :=
  ((hashWords ((toBlocks (padMessage msg)).foldl processBlock sha256H0)).map
      wordBytes).flatten

/-- Lowercase hex digit for `n < 16`. -/
def hexDigit (n : Nat) : Char :=
  if n < 10 then Char.ofNat (48 + n) else Char.ofNat (87 + n)

/-- Lowercase hex encoding of a byte list, as a character list. -/
def bytesToHexChars (bs : List Nat) : List Char :=
  (bs.map (fun b => [hexDigit (b / 16), hexDigit (b % 16)])).flatten

/-- `fmt.Sprintf("%x", sha256.Sum256(data))`: the hex digest string. -/
def sha256Hex (msg : List Nat) : String :=
  String.mk (bytesToHexChars (sha256Bytes msg))

example : sha256Hex [104, 101, 108, 108, 111] =
    "2cf24dba5fb0a30e26e83b2ac5b9e29e1b161e5c1fa7425e73043362938b9824" := by
  decide

example : sha256Hex [] =
    "e3b0c44298fc1c149afbf4c8996fb92427ae41e4649b934ca495991b7852b855" := by
  decide

/-! ## Data model (main.go:22-38) -/

/-- `AudioChunk` (main.go:22-28). `time.Time` is an opaque tick, `[]byte` a
byte list. The `json:"-"` tag on `Data` is modelled in `chunkJSONFields`. -/
structure AudioChunk where
  ChunkID : String
  UserID : String
  SessionID : String
  Timestamp : Nat
  Data : List Nat
deriving DecidableEq, Repr

/-- `Metadata` (main.go:30-38). -/
structure Metadata where
  ChunkID : String
  UserID : String
  SessionID : String
  Timestamp : Nat
  Checksum : String
  FFT : String
  Transcript : String
deriving DecidableEq, Repr

/-! ## Transformation stage (main.go:79-98)

`TransformStage`'s per-job body: hash the payload, copy the four provenance
fields, fill `FFT` from the `rand.Intn(10000)` draw (passed here as the
parameter `r`, reduced mod 10000 exactly as `Intn` bounds it) and the constant
transcript, then send the record on the job's channel. -/

/-- The Metadata produced for one job's chunk, given the random draw `r`. -/
def transformStage (c : AudioChunk) (r : Nat) : Metadata :=
  { ChunkID := c.ChunkID
    UserID := c.UserID
    SessionID := c.SessionID
    Timestamp := c.Timestamp
    Checksum := sha256Hex c.Data
    FFT := toString (r % 10000) ++ "Hz"
    Transcript := "Hello World" }

/-! ## Metadata store (main.go:40-72)

The Go `map[string]Metadata` behind a `sync.RWMutex`, as an association list
updated by overwrite-by-key; the map's key uniqueness is `keysNodup`. -/

/-- The store contents: chunk-id-keyed records. -/
def MemoryStore := List (String × Metadata)

/-- `NewMemoryStore` (main.go:45-47): the empty store. -/
def MemoryStore.new : MemoryStore := []

/-- `Save` (main.go:49-53): insert or overwrite the record keyed by its
`ChunkID`. -/
def MemoryStore.Save (s : MemoryStore) (meta : Metadata) : MemoryStore :=
  (meta.ChunkID, meta) :: s.filter (fun p => p.1 ≠ meta.ChunkID)

/-- `Get` (main.go:55-60): exact-key lookup; `none` models `ok = false`. -/
def MemoryStore.Get (s : MemoryStore) (id : String) : Option Metadata :=
  (s.find? (fun p => p.1 = id)).map Prod.snd

/-- `ListByUser` (main.go:62-72): linear scan over all stored records keeping
those whose `UserID` matches. -/
def MemoryStore.ListByUser (s : MemoryStore) (userID : String) : List Metadata :=
  (s.map Prod.snd).filter (fun m => m.UserID = userID)

/-- The stored records (the Go map's values). -/
def MemoryStore.values (s : MemoryStore) : List Metadata := s.map Prod.snd

/-- The Go map invariant: one record per chunk id. -/
def MemoryStore.keysNodup (s : MemoryStore) : Prop := (s.map Prod.fst).Nodup

/-! ## Jobs and the worker write trace (main.go:74-98)

A `Job` pairs a chunk with its private result channel
(`result := make(chan Metadata)` in the adapters); channels are identified by
a `Nat` tag. `workerRun` is the observable trace of the single
`TransformStage` goroutine over the list of jobs it dequeues, in FIFO order:
for each dequeued job, exactly one `(channel, Metadata)` send. `rng` supplies
the `rand.Intn` draw for each remaining-suffix length. -/

/-- `Job` (main.go:74-77). -/
structure Job where
  Chunk : AudioChunk
  Result : Nat
deriving DecidableEq, Repr

/-- The sends performed by the worker while it dequeues the job list `js`. -/
def workerRun (rng : Nat → Nat) : List Job → List (Nat × Metadata)
  | [] => []
  | j :: js => (j.Result, transformStage j.Chunk (rng js.length)) :: workerRun rng js

/-! ## Adapter-side serialization (main.go:22-38, 125, 146, 178-183)

`encoding/json` serializes a struct field per tag; the `json:"-"` tag on
`AudioChunk.Data` excludes the payload. Each encoder is modelled as the list
of (field name, rendered value) pairs it emits, in struct order. -/

/-- The JSON fields of an `AudioChunk` per its struct tags: `Data` carries
`json:"-"` and is omitted. -/
def chunkJSONFields (c : AudioChunk) : List (String × String) :=
  [("chunk_id", c.ChunkID), ("user_id", c.UserID),
   ("session_id", c.SessionID), ("timestamp", toString c.Timestamp)]

/-- The JSON fields of a `Metadata` per its struct tags. -/
def metadataJSONFields (m : Metadata) : List (String × String) :=
  [("chunk_id", m.ChunkID), ("user_id", m.UserID),
   ("session_id", m.SessionID), ("timestamp", toString m.Timestamp),
   ("checksum", m.Checksum), ("fft", m.FFT), ("transcript", m.Transcript)]

/-! ## WebSocket adapter chunk construction (main.go:165-171) -/

/-- The chunk `handleWebSocket` builds for one inbound message `msg`, given
the fresh uuid `newId` and the current time `now`. -/
def wsChunk (newId : String) (now : Nat) (msg : List Nat) : AudioChunk :=
  { ChunkID := newId
    UserID := "user1"
    SessionID := "sess1"
    Timestamp := now
    Data := msg }

/-! ## Engine submission transition system (main.go:79-98, 118-121, 173-176)

The submission path is a bare `jobs <- Job{...}` send on the buffered channel
`jobs := make(chan Job, 100)`, with no `select` on `ctx.Done()` and no error
value of any kind: the only outcomes of a submission in the code are
"buffered" and "still blocked". The state tracks the channel buffer, the
buffer capacity, whether `cancel()` has run, whether the single
`TransformStage` goroutine is still in its loop, and at most one submitter
blocked in a send. Steps mirror the code: a blocked send completes only when
buffer space appears; `cancel()` may happen; a running worker may take the
`ctx.Done()` branch (after which it has returned and never receives again) or,
while still running, receive a buffered job; other adapters may submit into
free space. -/

/-- Engine state for the submission/shutdown protocol. -/
structure EngineState where
  queue : List Job
  cap : Nat
  cancelled : Bool
  workerActive : Bool
  pendingSend : Option Job
deriving DecidableEq, Repr

/-- One interleaving step of the engine and its adapters. -/
inductive Step : EngineState → EngineState → Prop
  | enqueuePending (s : EngineState) (j : Job) :
      s.pendingSend = some j → s.queue.length < s.cap →
      Step s { s with queue := s.queue ++ [j], pendingSend := none }
  | submitNew (s : EngineState) (j : Job) :
      s.queue.length < s.cap →
      Step s { s with queue := s.queue ++ [j] }
  | cancel (s : EngineState) :
      Step s { s with cancelled := true }
  | workerExit (s : EngineState) :
      s.cancelled = true → s.workerActive = true →
      Step s { s with workerActive := false }
  | workerDequeue (s : EngineState) (j : Job) (rest : List Job) :
      s.workerActive = true → s.queue = j :: rest →
      Step s { s with queue := rest }

/-- Reachability: zero or more steps. -/
inductive Reachable : EngineState → EngineState → Prop
  | refl (s : EngineState) : Reachable s s
  | tail {s t u : EngineState} : Reachable s t → Step t u → Reachable s u

/-- The submitter blocked in state `s0` is eventually unblocked. -/
def unblockedEver (s0 : EngineState) : Prop :=
  ∃ s, Reachable s0 s ∧ s.pendingSend = none

/-! ## Helper lemmas -/

/-- Hex encoding doubles the byte count. -/
theorem bytesToHexChars_length (bs : List Nat) :
    (bytesToHexChars bs).length = 2 * bs.length := by
  induction bs with
  | nil => rfl
  | cons b bs ih =>
    simp only [bytesToHexChars, List.map_cons, List.flatten_cons,
      List.length_append, List.length_cons, List.length_nil] at ih ⊢
    omega

/-- A SHA-256 digest is 32 bytes. -/
theorem sha256Bytes_length (msg : List Nat) : (sha256Bytes msg).length = 32 := by
  simp [sha256Bytes, hashWords, wordBytes]

/-- A SHA-256 hex digest string has 64 characters. -/
theorem sha256Hex_length (msg : List Nat) : (sha256Hex msg).length = 64 := by
  show (bytesToHexChars (sha256Bytes msg)).length = 64
  rw [bytesToHexChars_length, sha256Bytes_length]

/-- Appending the `"Hz"` unit suffix never yields the empty string. -/
theorem append_hz_ne_empty (s : String) : s ++ "Hz" ≠ "" := by
  cases s with
  | mk l =>
    intro h
    have h2 := congrArg String.data h
    have h3 : l ++ "Hz".data = [] := h2
    simp at h3

/-- The channels written by the worker are exactly the dequeued jobs'
channels, in order, independent of the random draws. -/
theorem workerRun_map_fst (rng : Nat → Nat) (js : List Job) :
    (workerRun rng js).map Prod.fst = js.map Job.Result := by
  induction js with
  | nil => rfl
  | cons j js ih => simp [workerRun, ih]

/-- A state with the engine cancelled, the worker loop exited, a submitter
blocked in `jobs <- job`, and the channel buffer full. -/
def blockedShutdownState (s : EngineState) (j : Job) : Prop :=
  s.cancelled = true ∧ s.workerActive = false ∧ s.pendingSend = some j ∧
    s.cap ≤ s.queue.length

/-- No step leaves `blockedShutdownState`: nothing drains the buffer once the
worker has returned, so the blocked send can never complete. -/
theorem step_preserves_blocked {s t : EngineState} {j : Job}
    (hs : blockedShutdownState s j) (st : Step s t) : blockedShutdownState t j := by
  obtain ⟨hc, hw, hp, hq⟩ := hs
  cases st with
  | enqueuePending j' h1 h2 => omega
  | submitNew j' h1 => omega
  | cancel => exact ⟨rfl, hw, hp, hq⟩
  | workerExit h1 h2 => rw [hw] at h2; cases h2
  | workerDequeue j' rest h1 h2 => rw [hw] at h1; cases h1

/-- `blockedShutdownState` is invariant along every execution. -/
theorem reachable_blocked {s0 s : EngineState} {j : Job}
    (h0 : blockedShutdownState s0 j) (hr : Reachable s0 s) :
    blockedShutdownState s j := by
  induction hr with
  | refl => exact h0
  | tail hr st ih => exact step_preserves_blocked ih st

/-- `Save` then `Get` on the saved key returns the saved record. -/
theorem Get_Save (s : MemoryStore) (m : Metadata) :
    (s.Save m).Get m.ChunkID = some m := by
  simp [MemoryStore.Save, MemoryStore.Get]

/-- `Save` preserves the one-record-per-chunk-id invariant of the Go map. -/
theorem keysNodup_Save (s : MemoryStore) (m : Metadata) (h : s.keysNodup) :
    (s.Save m).keysNodup := by
  simp only [MemoryStore.Save, MemoryStore.keysNodup, List.map_cons, List.nodup_cons]
  constructor
  · intro hmem
    simp only [List.mem_map, List.mem_filter] at hmem
    obtain ⟨p, ⟨hp1, hp2⟩, hp3⟩ := hmem
    simp [hp3] at hp2
  · have hsub : List.Sublist ((s.filter (fun p => p.1 ≠ m.ChunkID)).map Prod.fst)
        (s.map Prod.fst) := (List.filter_sublist s).map Prod.fst
    exact List.Nodup.sublist hsub h

/-- `ListByUser` keeps exactly the stored records owned by the queried user. -/
theorem mem_ListByUser (s : MemoryStore) (u : String) (m : Metadata) :
    m ∈ s.ListByUser u ↔ m ∈ s.values ∧ m.UserID = u := by
  simp [MemoryStore.ListByUser, MemoryStore.values, List.mem_filter]

/-! ## Concrete fixtures -/

/-- The scenario-A chunk: payload `b"hello"`, submitter `"u1"`. -/
def helloChunk : AudioChunk :=
  { ChunkID := "c1", UserID := "u1", SessionID := "s1", Timestamp := 0,
    Data := [104, 101, 108, 108, 111] }

/-- A chunk with an empty payload. -/
def emptyChunk : AudioChunk :=
  { ChunkID := "e1", UserID := "u", SessionID := "s", Timestamp := 0, Data := [] }

/-- First record for user `u1`. -/
def metaU1a : Metadata :=
  { ChunkID := "c1", UserID := "u1", SessionID := "s1", Timestamp := 1,
    Checksum := "k1", FFT := "100Hz", Transcript := "t1" }

/-- Second record for user `u1`. -/
def metaU1b : Metadata :=
  { ChunkID := "c2", UserID := "u1", SessionID := "s2", Timestamp := 2,
    Checksum := "k2", FFT := "200Hz", Transcript := "t2" }

/-- A record for user `u2`. -/
def metaU2 : Metadata :=
  { ChunkID := "c3", UserID := "u2", SessionID := "s3", Timestamp := 3,
    Checksum := "k3", FFT := "300Hz", Transcript := "t3" }

/-- Scenario-B store: two records for `u1`, one for `u2`. -/
def scenarioStore : MemoryStore :=
  ((MemoryStore.new.Save metaU1a).Save metaU1b).Save metaU2

/-- A chunk sitting in the channel buffer. -/
def chunkA : AudioChunk :=
  { ChunkID := "a", UserID := "u1", SessionID := "s1", Timestamp := 0, Data := [1] }

/-- The chunk of the blocked submission. -/
def chunkB : AudioChunk :=
  { ChunkID := "b", UserID := "u2", SessionID := "s2", Timestamp := 1, Data := [2] }

/-- A chunk sharing `chunkA`'s payload but nothing else. -/
def chunkC : AudioChunk :=
  { ChunkID := "c", UserID := "u9", SessionID := "s9", Timestamp := 9, Data := [1] }

/-- The buffered job. -/
def jQueued : Job := { Chunk := chunkA, Result := 0 }

/-- The job whose send is blocked on the full buffer. -/
def jBlocked : Job := { Chunk := chunkB, Result := 1 }

/-- Before shutdown: buffer full (capacity 1), worker running, one submitter
blocked in `jobs <- Job{...}`. -/
def preCancelState : EngineState :=
  { queue := [jQueued], cap := 1, cancelled := false, workerActive := true,
    pendingSend := some jBlocked }

/-- After `cancel()` ran and the worker took the `ctx.Done()` branch. -/
def cexC1 : EngineState :=
  { queue := [jQueued], cap := 1, cancelled := true, workerActive := false,
    pendingSend := some jBlocked }

/-- The post-shutdown stuck state is reachable from the pre-shutdown state:
`cancel()` fires, then the worker's `select` takes `ctx.Done()` and returns. -/
theorem cex_reachable : Reachable preCancelState cexC1 :=
  Reachable.tail
    (Reachable.tail (Reachable.refl preCancelState) (Step.cancel preCancelState))
    (Step.workerExit { preCancelState with cancelled := true } rfl rfl)

/-! ## Claim theorems -/

/-- C1 (counterexample): in the code, submission is a bare `jobs <- Job{...}`
send with no `select` on `ctx.Done()` and no error value. Starting from a
concrete state with a full capacity-1 buffer, a running worker, and one
submitter blocked in the send, the post-shutdown state `cexC1` (cancellation
fired, worker took the `ctx.Done()` branch and returned) is reachable — and
from `cexC1` the blocked submitter is never unblocked at all, let alone with a
Shutdown error. -/
theorem submit_after_cancel_blocks_forever :
    Reachable preCancelState cexC1 ∧ cexC1.cancelled = true ∧
      cexC1.pendingSend = some jBlocked ∧ ¬ unblockedEver cexC1 := by
  refine ⟨cex_reachable, rfl, rfl, ?_⟩
  rintro ⟨s, hr, hnone⟩
  have h := reachable_blocked (j := jBlocked) ⟨rfl, rfl, rfl, by decide⟩ hr
  rw [h.2.2.1] at hnone
  cases hnone

/-- C1 (amended): once the execution scope is cancelled and the worker loop
has exited, a submitter blocked on a full queue remains blocked forever: the
submission never completes and no Shutdown (or any other) error is ever
delivered, because the bare channel send has no cancellation path and no error
outcome. -/
theorem blocked_submitter_never_unblocked :
    ∀ (s0 : EngineState) (j : Job), s0.cancelled = true →
      s0.workerActive = false → s0.pendingSend = some j →
      s0.cap ≤ s0.queue.length → ¬ unblockedEver s0 := by
  intro s0 j hc hw hp hq hu
  obtain ⟨s, hr, hnone⟩ := hu
  have h := reachable_blocked ⟨hc, hw, hp, hq⟩ hr
  rw [h.2.2.1] at hnone
  cases hnone

/-- C1 witness: the amended theorem applied at the concrete stuck state. -/
theorem blocked_submitter_never_unblocked_witness :
    cexC1.cancelled = true ∧ cexC1.workerActive = false ∧
      cexC1.pendingSend = some jBlocked ∧ cexC1.cap ≤ cexC1.queue.length ∧
      ¬ unblockedEver cexC1 :=
  ⟨rfl, rfl, rfl, by decide,
    blocked_submitter_never_unblocked cexC1 jBlocked rfl rfl rfl (by decide)⟩

/-- C2: `transformStage` copies `ChunkID`, `UserID`, `SessionID`, `Timestamp`
unchanged from the chunk, derives `Checksum` as the SHA-256 hex digest of the
payload, and populates the remaining fields; on the scenario-A chunk (payload
`b"hello"`, submitter `"u1"`) the checksum is the well-known digest of
`"hello"` and the submitter is preserved. -/
theorem transformStage_copies_fields_and_hello_digest :
    (∀ (c : AudioChunk) (r : Nat),
        (transformStage c r).ChunkID = c.ChunkID ∧
        (transformStage c r).UserID = c.UserID ∧
        (transformStage c r).SessionID = c.SessionID ∧
        (transformStage c r).Timestamp = c.Timestamp ∧
        (transformStage c r).Checksum = sha256Hex c.Data ∧
        (transformStage c r).FFT ≠ "" ∧
        (transformStage c r).Transcript ≠ "")
    ∧ (transformStage helloChunk 0).Checksum =
        "2cf24dba5fb0a30e26e83b2ac5b9e29e1b161e5c1fa7425e73043362938b9824"
    ∧ (transformStage helloChunk 0).UserID = "u1" := by
  constructor
  · intro c r
    refine ⟨rfl, rfl, rfl, rfl, rfl, append_hz_ne_empty _, ?_⟩
    show ("Hello World" : String) ≠ ""
    decide
  · exact ⟨by decide, rfl⟩

/-- C3: the single worker writes exactly one Metadata to each dequeued job's
private result channel — with every job carrying a fresh channel, the write
trace contains that channel exactly once, whatever the random draws. -/
theorem workerRun_writes_once_per_job :
    ∀ (rng : Nat → Nat) (js : List Job), (js.map Job.Result).Nodup →
      ∀ j ∈ js, ((workerRun rng js).map Prod.fst).count j.Result = 1 := by
  intro rng js hn j hj
  rw [workerRun_map_fst]
  exact List.count_eq_one_of_mem hn (List.mem_map_of_mem Job.Result hj)

/-- C3 witness: the exactly-once theorem applied to a concrete two-job run. -/
theorem workerRun_writes_once_per_job_witness :
    ([jQueued, jBlocked].map Job.Result).Nodup ∧ jQueued ∈ [jQueued, jBlocked] ∧
      ((workerRun (fun _ => 0) [jQueued, jBlocked]).map Prod.fst).count
        jQueued.Result = 1 :=
  ⟨by decide, by decide,
    workerRun_writes_once_per_job (fun _ => 0) [jQueued, jBlocked] (by decide)
      jQueued (by decide)⟩

/-- C4: `Save` always succeeds, after `Save m` a `Get m.ChunkID` returns `m`
in all fields, and `Save` keeps chunk ids unique across the store. -/
theorem Save_Get_roundtrip_and_key_unique :
    ∀ (s : MemoryStore) (m : Metadata),
      (s.Save m).Get m.ChunkID = some m ∧
      (s.keysNodup → (s.Save m).keysNodup) :=
  fun s m => ⟨Get_Save s m, keysNodup_Save s m⟩

/-- C4 witness: the round-trip theorem applied at a concrete store. -/
theorem Save_Get_roundtrip_and_key_unique_witness :
    MemoryStore.new.keysNodup ∧
      (MemoryStore.new.Save metaU1a).Get metaU1a.ChunkID = some metaU1a ∧
      (MemoryStore.new.Save metaU1a).keysNodup :=
  ⟨List.nodup_nil, (Save_Get_roundtrip_and_key_unique MemoryStore.new metaU1a).1,
    (Save_Get_roundtrip_and_key_unique MemoryStore.new metaU1a).2 List.nodup_nil⟩

/-- C5: `ListByUser u` returns exactly the stored records whose `UserID` is
`u` (a linear scan filter), and on the scenario-B store it returns 2 records
for `u1`, 1 for `u2` and 0 for the unused `u3`. -/
theorem ListByUser_filter_and_scenario :
    (∀ (s : MemoryStore) (u : String) (m : Metadata),
        m ∈ s.ListByUser u ↔ m ∈ s.values ∧ m.UserID = u)
    ∧ (scenarioStore.ListByUser "u1").length = 2
    ∧ (scenarioStore.ListByUser "u2").length = 1
    ∧ (scenarioStore.ListByUser "u3").length = 0 :=
  ⟨mem_ListByUser, by decide, by decide, by decide⟩

/-- C6: the checksum depends only on the payload bytes — two chunks with
byte-identical payloads get equal checksums, whatever their other fields and
whatever the (run-dependent) random draws. -/
theorem checksum_deterministic_in_payload :
    ∀ (c1 c2 : AudioChunk) (r1 r2 : Nat), c1.Data = c2.Data →
      (transformStage c1 r1).Checksum = (transformStage c2 r2).Checksum := by
  intro c1 c2 r1 r2 h
  show sha256Hex c1.Data = sha256Hex c2.Data
  rw [h]

/-- C6 witness: equal payloads, all other fields and draws different. -/
theorem checksum_deterministic_in_payload_witness :
    chunkA.Data = chunkC.Data ∧
      (transformStage chunkA 3).Checksum = (transformStage chunkC 7).Checksum :=
  ⟨rfl, checksum_deterministic_in_payload chunkA chunkC 3 7 rfl⟩

/-- C7: the transformation stage is total — it has no error branch, every
chunk's checksum is a well-formed 64-character digest, and the empty payload
yields the valid SHA-256 digest of the empty byte sequence, not an error. -/
theorem transformStage_total_empty_payload :
    (∀ (c : AudioChunk) (r : Nat),
        (transformStage c r).Checksum = sha256Hex c.Data ∧
        ((transformStage c r).Checksum).length = 64)
    ∧ (transformStage emptyChunk 0).Checksum =
        "e3b0c44298fc1c149afbf4c8996fb92427ae41e4649b934ca495991b7852b855" := by
  refine ⟨fun c r => ⟨rfl, sha256Hex_length c.Data⟩, by decide⟩

/-- C8: the payload is in no externally serialized form — the chunk's JSON
encoding is independent of `Data` (tagged `json:"-"`) and emits only the four
provenance field names, and the Metadata returned to callers has exactly the
seven derived field names, none of which is a payload field. -/
theorem payload_never_serialized :
    (∀ (c : AudioChunk) (d1 d2 : List Nat),
        chunkJSONFields { c with Data := d1 } = chunkJSONFields { c with Data := d2 })
    ∧ (∀ c : AudioChunk, (chunkJSONFields c).map Prod.fst =
        ["chunk_id", "user_id", "session_id", "timestamp"])
    ∧ (∀ m : Metadata, (metadataJSONFields m).map Prod.fst =
        ["chunk_id", "user_id", "session_id", "timestamp", "checksum", "fft",
         "transcript"]) :=
  ⟨fun _ _ _ => rfl, fun _ => rfl, fun _ => rfl⟩

/-- C9: every chunk built by the WebSocket adapter carries the hard-coded
submitter `"user1"` and session `"sess1"`, whatever the message, uuid and
time — streaming callers cannot supply their own identifiers. -/
theorem wsChunk_constant_identifiers :
    ∀ (newId : String) (now : Nat) (msg : List Nat),
      (wsChunk newId now msg).UserID = "user1" ∧
      (wsChunk newId now msg).SessionID = "sess1" :=
  fun _ _ _ => ⟨rfl, rfl⟩

/-- C10: the transformation stage sets `Transcript` to the constant
`"Hello World"` for every chunk and every random draw. -/
theorem transformStage_transcript_constant :
    ∀ (c : AudioChunk) (r : Nat), (transformStage c r).Transcript = "Hello World" :=
  fun _ _ => rfl
